import Mathlib

/-
Shallow embedding of the CartoonAI client (React/TypeScript).

The embedded code is the generation/persistence logic of the Home page
(`generateImage`, `saveImage`, the module-scope Hugging Face client
initialisation) and the gallery query of the Profile page (`loadImages`),
together with the constants `MAX_RETRIES` and `RETRY_DELAY`.

Effects are made explicit: each modelled operation returns its result
together with the ordered list of observable events it performs (network
calls, waits, database inserts, UI state updates, toasts).  Time is in
milliseconds exactly as in the source; one "time-unit" of the
specification is 1000 ms.
-/

namespace CartoonAI

/-- Characters `pre` are an initial segment of `l` (model of the start of a
JavaScript `String.prototype.includes` scan). -/
def listStartsWith : List Char → List Char → Bool
  | [], _ => true
  | _ :: _, [] => false
  | a :: as, b :: bs => a == b && listStartsWith as bs

/-- Characters `needle` occur contiguously somewhere in `l`. -/
def listHasSub (needle : List Char) : List Char → Bool
  | [] => listStartsWith needle []
  | c :: rest => listStartsWith needle (c :: rest) || listHasSub needle rest

/-- Model of JavaScript `hay.includes(needle)`. -/
def strIncludes (hay needle : String) : Bool :=
  listHasSub needle.data hay.data

/-- Model of the falsiness of `prompt.trim()`: the trimmed string is empty
iff every character of the prompt is whitespace. -/
def trimmedEmpty (s : String) : Bool :=
  s.data.all Char.isWhitespace

/-- Source constant `MAX_RETRIES = 3`. -/
def MAX_RETRIES : Nat := 3

/-- Source constant `RETRY_DELAY = 2000` (milliseconds). -/
def RETRY_DELAY : Nat := 2000

/-- The bound passed to `setTimeout(() => controller.abort(), 30000)`:
the single HTTP call of an attempt is aborted after 30000 ms. -/
def TIMEOUT_MS : Nat := 30000

/-- The default used in `parseInt(response.headers.get('Retry-After') || '5', 10)`
when the Retry-After header is absent (in seconds, i.e. spec time-units). -/
def DEFAULT_RETRY_AFTER : Nat := 5

/-- The fixed style suffix appended to the user's prompt before submission. -/
def STYLE_SUFFIX : String :=
  ", high quality, detailed, cartoon style, digital art, vibrant colors, sharp focus, clean lines, professional illustration"

/-- The resource-exhaustion warning marker searched for in response warnings. -/
def CUDA_OOM_MARKER : String := "CUDA out of memory"

/-- Source: `const enhancedPrompt = `$\x7bprompt\x7d, high quality, ...`` -/
def enhancedPrompt (prompt : String) : String :=
  prompt ++ STYLE_SUFFIX

/-- The error payload of a non-ok response:
`await response.json().catch(() => null) || await response.text()`.
`isJsonObject` is whether `typeof errorData === 'object'`, `hasError` the
truthiness of its `error` field, `warnings` its optional `warnings` array,
and `raw` the text `JSON.stringify(errorData)` interpolates into the
thrown error message. -/
structure ErrorData where
  isJsonObject : Bool
  hasError : Bool
  warnings : Option (List String)
  raw : String
deriving DecidableEq, Repr

/-- Source check `typeof errorData === 'object' && errorData.error &&
errorData.warnings && errorData.warnings.some(w => w.includes('CUDA out of memory'))`. -/
def isCudaOOM (ed : ErrorData) : Bool :=
  ed.isJsonObject && ed.hasError &&
    (match ed.warnings with
     | some ws => ws.any (fun w => strIncludes w CUDA_OOM_MARKER)
     | none => false)

/-- Outcome of the single bounded fetch of one attempt.  `abortError` is the
rejection raised when the 30000 ms timer fires (`error.name === 'AbortError'`);
`networkError` is a generic transport failure whose message includes
'Failed to fetch'. -/
inductive FetchOutcome where
  | ok (body : String)
  | httpError (status : Nat) (retryAfter : Option Nat) (errorData : ErrorData)
  | abortError
  | networkError
deriving DecidableEq, Repr

/-- Observable events of the modelled operations, in order of occurrence. -/
inductive Event where
  | networkCall (submittedPrompt : String) (attempt : Nat)
  | wait (ms : Nat)
  | setImage (base64data : String)
  | insertRecord (userId imageUrl prompt : String)
  | toastError (msg : String)
  | toastSuccess (msg : String)
deriving DecidableEq, Repr

/-- Result of `saveImage`. -/
inductive SaveResult where
  | noSession
  | storeFailed
  | saved
deriving DecidableEq, Repr

/-- Source `saveImage(imageUrl, prompt)`: guard on the session, one insert
into the `images` collection, toast on error or success, never a retry.
`storeOk` is the outcome the external store returns for the insert. -/
def saveImage (user : Option String) (storeOk : Bool) (imageUrl prompt : String) :
    SaveResult × List Event :=
  match user with
  | none => (.noSession, [.toastError "Please sign in to save images"])
  | some uid =>
      if storeOk then
        (.saved, [.insertRecord uid imageUrl prompt,
                  .toastSuccess "Image saved to your gallery!"])
      else
        (.storeFailed, [.insertRecord uid imageUrl prompt,
                        .toastError "Failed to save image"])

/-- The error value thrown inside the try block of `generateImage` and
inspected by its catch clause. -/
inductive ThrownError where
  | apiRequestFailed (errorData : ErrorData)
  | abortTimeout
  | failedFetch
deriving DecidableEq, Repr

/-- The `.message` of a thrown error, inspected by the catch clause and
shown by `toast.error` when the error is surfaced. -/
def errMessage : ThrownError → String
  | .apiRequestFailed ed => "API request failed: " ++ ed.raw
  | .abortTimeout => "The user aborted a request."
  | .failedFetch => "Failed to fetch"

/-- Terminal outcome of a `generateImage` call. -/
inductive GenResult where
  | noSession
  | emptyPrompt
  | hfMissing
  | generated (base64data : String)
  | failed (err : ThrownError)
deriving DecidableEq, Repr

/-- Module-scope initialisation of the Hugging Face client: the client
handle is set iff the API key is configured; on a missing key the thrown
error is caught and `hf` stays undefined. -/
def hfInit (apiKey : Option String) : Bool :=
  apiKey.isSome

/-- Source `generateImage(retryCount = 0)`.  `hf` is whether the client
handle was initialised, `user` the current session identity, `upstream`
gives the fetch outcome of each attempt (indexed by its retry count), and
`storeOk` the store's answer to the save performed on success. -/
def generateImage (hf : Bool) (user : Option String) (prompt : String)
    (upstream : Nat → FetchOutcome) (storeOk : Bool) (retryCount : Nat) :
    GenResult × List Event :=
  if user.isNone then
    (.noSession, [.toastError "Please sign in to generate images"])
  else if trimmedEmpty prompt then
    (.emptyPrompt, [.toastError "Please enter a prompt"])
  else if hf = false then
    (.hfMissing, [.toastError "API client is not properly initialized"])
  else
    match upstream retryCount with
    | .ok body =>
        let save := saveImage user storeOk body prompt
        (.generated body,
          .networkCall (enhancedPrompt prompt) retryCount ::
            .setImage body :: save.2 ++ [.toastSuccess "Image generated successfully!"])
    | .httpError status retryAfter errorData =>
        -- the source's two fall-through retry checks, then the single
        -- `throw new Error(..)` whose message the catch clause matches
        -- against 'Failed to fetch' before retrying or surfacing it
        if hcu : isCudaOOM errorData = true ∧ retryCount < MAX_RETRIES then
          let rest := generateImage hf user prompt upstream storeOk (retryCount + 1)
          (rest.1, .networkCall (enhancedPrompt prompt) retryCount ::
            .wait RETRY_DELAY :: rest.2)
        else if h429 : status = 429 ∧ retryCount < MAX_RETRIES then
          let retryAfterVal := retryAfter.getD DEFAULT_RETRY_AFTER
          let rest := generateImage hf user prompt upstream storeOk (retryCount + 1)
          (rest.1, .networkCall (enhancedPrompt prompt) retryCount ::
            .wait (retryAfterVal * 1000) :: rest.2)
        else
          if hff : strIncludes (errMessage (.apiRequestFailed errorData))
              "Failed to fetch" = true ∧ retryCount < MAX_RETRIES then
            let rest := generateImage hf user prompt upstream storeOk (retryCount + 1)
            (rest.1, .networkCall (enhancedPrompt prompt) retryCount ::
              .wait RETRY_DELAY :: rest.2)
          else
            (.failed (.apiRequestFailed errorData),
              [.networkCall (enhancedPrompt prompt) retryCount,
               .toastError (errMessage (.apiRequestFailed errorData))])
    | .abortError =>
        if h : retryCount < MAX_RETRIES then
          let rest := generateImage hf user prompt upstream storeOk (retryCount + 1)
          (rest.1, .networkCall (enhancedPrompt prompt) retryCount ::
            .wait RETRY_DELAY :: rest.2)
        else
          (.failed .abortTimeout,
            [.networkCall (enhancedPrompt prompt) retryCount,
             .toastError (errMessage .abortTimeout)])
    | .networkError =>
        if h : retryCount < MAX_RETRIES then
          let rest := generateImage hf user prompt upstream storeOk (retryCount + 1)
          (rest.1, .networkCall (enhancedPrompt prompt) retryCount ::
            .wait RETRY_DELAY :: rest.2)
        else
          (.failed .failedFetch,
            [.networkCall (enhancedPrompt prompt) retryCount,
             .toastError (errMessage .failedFetch)])
termination_by MAX_RETRIES + 1 - retryCount
decreasing_by all_goals (simp_wf; omega)

/-- A persisted row of the `images` table. -/
structure ImageRecord where
  id : String
  user_id : String
  image_url : String
  prompt : String
  created_at : Nat
deriving DecidableEq, Repr

/-- Ordering used by `.order('created_at', \x7b ascending: false \x7d)`:
most recent first. -/
def byNewest (a b : ImageRecord) : Prop :=
  b.created_at ≤ a.created_at

instance : DecidableRel byNewest :=
  fun a b => inferInstanceAs (Decidable (b.created_at ≤ a.created_at))

instance : IsTotal ImageRecord byNewest :=
  ⟨fun a b => Nat.le_total b.created_at a.created_at⟩

instance : IsTrans ImageRecord byNewest :=
  ⟨fun _ _ _ h1 h2 => Nat.le_trans h2 h1⟩

/-- Semantics of the Profile query
`supabase.from('images').select('*').eq('user_id', user.id).order('created_at', ...)`:
the rows of the store with the given owner, most recent first. -/
def loadImagesQuery (store : List ImageRecord) (uid : String) : List ImageRecord :=
  List.insertionSort byNewest (store.filter (fun r => r.user_id == uid))

/-- Source `loadImages` of the Profile page: nothing is fetched without a
session; on a store error nothing is returned; otherwise the owner's rows. -/
def loadImages (user : Option String) (storeOk : Bool) (store : List ImageRecord) :
    Option (List ImageRecord) :=
  match user with
  | none => none
  | some uid => if storeOk then some (loadImagesQuery store uid) else none

/-- Event is an outbound HTTP generation call. -/
def isNetworkCall : Event → Bool
  | .networkCall _ _ => true
  | _ => false

/-- Event is an insert into the images store. -/
def isInsert : Event → Bool
  | .insertRecord _ _ _ => true
  | _ => false

/-- Number of outbound HTTP generation calls in a trace. -/
def numCalls (evs : List Event) : Nat :=
  evs.countP isNetworkCall

/-- Number of store inserts in a trace. -/
def numInserts (evs : List Event) : Nat :=
  evs.countP isInsert

/-! Helper lemmas: one-step unfoldings of `generateImage` per response class. -/

@[simp] lemma numCalls_nil : numCalls [] = 0 := rfl

@[simp] lemma numCalls_cons (e : Event) (evs : List Event) :
    numCalls (e :: evs) = numCalls evs + (if isNetworkCall e then 1 else 0) :=
  List.countP_cons _ _ _

@[simp] lemma numCalls_append (a b : List Event) :
    numCalls (a ++ b) = numCalls a + numCalls b :=
  List.countP_append _ _ _

@[simp] lemma numInserts_nil : numInserts [] = 0 := rfl

@[simp] lemma numInserts_cons (e : Event) (evs : List Event) :
    numInserts (e :: evs) = numInserts evs + (if isInsert e then 1 else 0) :=
  List.countP_cons _ _ _

@[simp] lemma numInserts_append (a b : List Event) :
    numInserts (a ++ b) = numInserts a + numInserts b :=
  List.countP_append _ _ _

lemma saveImage_numCalls (user : Option String) (storeOk : Bool) (imageUrl prompt : String) :
    numCalls (saveImage user storeOk imageUrl prompt).2 = 0 := by
  cases user with
  | none => simp [saveImage, numCalls, List.countP_cons, List.countP_nil, isNetworkCall]
  | some uid =>
      by_cases h : storeOk <;>
        simp [saveImage, h, numCalls, List.countP_cons, List.countP_nil, isNetworkCall]

lemma generateImage_ok (hf : Bool) (uid prompt : String)
    (upstream : Nat → FetchOutcome) (storeOk : Bool) (rc : Nat)
    (hp : trimmedEmpty prompt = false) (hhf : hf = true)
    (body : String) (hu : upstream rc = .ok body) :
    generateImage hf (some uid) prompt upstream storeOk rc =
      (.generated body,
        .networkCall (enhancedPrompt prompt) rc ::
          .setImage body :: (saveImage (some uid) storeOk body prompt).2 ++
          [.toastSuccess "Image generated successfully!"]) := by
  subst hhf
  conv_lhs => rw [generateImage.eq_def]
  simp [hu, hp]

lemma generateImage_429_step (hf : Bool) (uid prompt : String)
    (upstream : Nat → FetchOutcome) (storeOk : Bool) (rc : Nat)
    (hrc : rc < MAX_RETRIES) (hp : trimmedEmpty prompt = false) (hhf : hf = true)
    (ra : Option Nat) (ed : ErrorData) (hed : isCudaOOM ed = false)
    (hu : upstream rc = .httpError 429 ra ed) :
    generateImage hf (some uid) prompt upstream storeOk rc =
      ((generateImage hf (some uid) prompt upstream storeOk (rc + 1)).1,
        .networkCall (enhancedPrompt prompt) rc ::
          .wait ((ra.getD DEFAULT_RETRY_AFTER) * 1000) ::
          (generateImage hf (some uid) prompt upstream storeOk (rc + 1)).2) := by
  subst hhf
  conv_lhs => rw [generateImage.eq_def]
  simp [hu, hp, hed, hrc]

lemma generateImage_httpError_exhausted (hf : Bool) (uid prompt : String)
    (upstream : Nat → FetchOutcome) (storeOk : Bool) (rc : Nat)
    (hrc : MAX_RETRIES ≤ rc) (hp : trimmedEmpty prompt = false) (hhf : hf = true)
    (status : Nat) (ra : Option Nat) (ed : ErrorData)
    (hu : upstream rc = .httpError status ra ed) :
    generateImage hf (some uid) prompt upstream storeOk rc =
      (.failed (.apiRequestFailed ed),
        [.networkCall (enhancedPrompt prompt) rc,
         .toastError (errMessage (.apiRequestFailed ed))]) := by
  subst hhf
  conv_lhs => rw [generateImage.eq_def]
  simp [hu, hp, Nat.not_lt.mpr hrc]

lemma generateImage_cuda_step (hf : Bool) (uid prompt : String)
    (upstream : Nat → FetchOutcome) (storeOk : Bool) (rc : Nat)
    (hrc : rc < MAX_RETRIES) (hp : trimmedEmpty prompt = false) (hhf : hf = true)
    (status : Nat) (ra : Option Nat) (ed : ErrorData) (hed : isCudaOOM ed = true)
    (hu : upstream rc = .httpError status ra ed) :
    generateImage hf (some uid) prompt upstream storeOk rc =
      ((generateImage hf (some uid) prompt upstream storeOk (rc + 1)).1,
        .networkCall (enhancedPrompt prompt) rc ::
          .wait RETRY_DELAY ::
          (generateImage hf (some uid) prompt upstream storeOk (rc + 1)).2) := by
  subst hhf
  conv_lhs => rw [generateImage.eq_def]
  simp [hu, hp, hed, hrc]

lemma generateImage_thrown_ff_step (hf : Bool) (uid prompt : String)
    (upstream : Nat → FetchOutcome) (storeOk : Bool) (rc : Nat)
    (hrc : rc < MAX_RETRIES) (hp : trimmedEmpty prompt = false) (hhf : hf = true)
    (status : Nat) (ra : Option Nat) (ed : ErrorData) (hed : isCudaOOM ed = false)
    (hst : status ≠ 429)
    (hff : strIncludes (errMessage (.apiRequestFailed ed)) "Failed to fetch" = true)
    (hu : upstream rc = .httpError status ra ed) :
    generateImage hf (some uid) prompt upstream storeOk rc =
      ((generateImage hf (some uid) prompt upstream storeOk (rc + 1)).1,
        .networkCall (enhancedPrompt prompt) rc ::
          .wait RETRY_DELAY ::
          (generateImage hf (some uid) prompt upstream storeOk (rc + 1)).2) := by
  subst hhf
  conv_lhs => rw [generateImage.eq_def]
  simp [hu, hp, hed, hst, hff, hrc]

lemma generateImage_other_error (hf : Bool) (uid prompt : String)
    (upstream : Nat → FetchOutcome) (storeOk : Bool) (rc : Nat)
    (hp : trimmedEmpty prompt = false) (hhf : hf = true)
    (status : Nat) (ra : Option Nat) (ed : ErrorData) (hed : isCudaOOM ed = false)
    (hst : status ≠ 429)
    (hff : strIncludes (errMessage (.apiRequestFailed ed)) "Failed to fetch" = false)
    (hu : upstream rc = .httpError status ra ed) :
    generateImage hf (some uid) prompt upstream storeOk rc =
      (.failed (.apiRequestFailed ed),
        [.networkCall (enhancedPrompt prompt) rc,
         .toastError (errMessage (.apiRequestFailed ed))]) := by
  subst hhf
  conv_lhs => rw [generateImage.eq_def]
  simp [hu, hp, hed, hst, hff]

lemma generateImage_abort_step (hf : Bool) (uid prompt : String)
    (upstream : Nat → FetchOutcome) (storeOk : Bool) (rc : Nat)
    (hrc : rc < MAX_RETRIES) (hp : trimmedEmpty prompt = false) (hhf : hf = true)
    (hu : upstream rc = .abortError) :
    generateImage hf (some uid) prompt upstream storeOk rc =
      ((generateImage hf (some uid) prompt upstream storeOk (rc + 1)).1,
        .networkCall (enhancedPrompt prompt) rc ::
          .wait RETRY_DELAY ::
          (generateImage hf (some uid) prompt upstream storeOk (rc + 1)).2) := by
  subst hhf
  conv_lhs => rw [generateImage.eq_def]
  simp [hu, hp, hrc]

lemma generateImage_abort_exhausted (hf : Bool) (uid prompt : String)
    (upstream : Nat → FetchOutcome) (storeOk : Bool) (rc : Nat)
    (hrc : MAX_RETRIES ≤ rc) (hp : trimmedEmpty prompt = false) (hhf : hf = true)
    (hu : upstream rc = .abortError) :
    generateImage hf (some uid) prompt upstream storeOk rc =
      (.failed .abortTimeout,
        [.networkCall (enhancedPrompt prompt) rc,
         .toastError (errMessage .abortTimeout)]) := by
  subst hhf
  conv_lhs => rw [generateImage.eq_def]
  simp [hu, hp, Nat.not_lt.mpr hrc]

lemma generateImage_network_step (hf : Bool) (uid prompt : String)
    (upstream : Nat → FetchOutcome) (storeOk : Bool) (rc : Nat)
    (hrc : rc < MAX_RETRIES) (hp : trimmedEmpty prompt = false) (hhf : hf = true)
    (hu : upstream rc = .networkError) :
    generateImage hf (some uid) prompt upstream storeOk rc =
      ((generateImage hf (some uid) prompt upstream storeOk (rc + 1)).1,
        .networkCall (enhancedPrompt prompt) rc ::
          .wait RETRY_DELAY ::
          (generateImage hf (some uid) prompt upstream storeOk (rc + 1)).2) := by
  subst hhf
  conv_lhs => rw [generateImage.eq_def]
  simp [hu, hp, hrc]

lemma generateImage_network_exhausted (hf : Bool) (uid prompt : String)
    (upstream : Nat → FetchOutcome) (storeOk : Bool) (rc : Nat)
    (hrc : MAX_RETRIES ≤ rc) (hp : trimmedEmpty prompt = false) (hhf : hf = true)
    (hu : upstream rc = .networkError) :
    generateImage hf (some uid) prompt upstream storeOk rc =
      (.failed .failedFetch,
        [.networkCall (enhancedPrompt prompt) rc,
         .toastError (errMessage .failedFetch)]) := by
  subst hhf
  conv_lhs => rw [generateImage.eq_def]
  simp [hu, hp, Nat.not_lt.mpr hrc]

lemma generateImage_noSession (hf : Bool) (prompt : String)
    (upstream : Nat → FetchOutcome) (storeOk : Bool) (rc : Nat) :
    generateImage hf none prompt upstream storeOk rc =
      (.noSession, [.toastError "Please sign in to generate images"]) := by
  conv_lhs => rw [generateImage.eq_def]
  simp

lemma generateImage_emptyPrompt (hf : Bool) (uid prompt : String)
    (upstream : Nat → FetchOutcome) (storeOk : Bool) (rc : Nat)
    (hp : trimmedEmpty prompt = true) :
    generateImage hf (some uid) prompt upstream storeOk rc =
      (.emptyPrompt, [.toastError "Please enter a prompt"]) := by
  conv_lhs => rw [generateImage.eq_def]
  simp [hp]

lemma generateImage_hfMissing (uid prompt : String)
    (upstream : Nat → FetchOutcome) (storeOk : Bool) (rc : Nat)
    (hp : trimmedEmpty prompt = false) :
    generateImage false (some uid) prompt upstream storeOk rc =
      (.hfMissing, [.toastError "API client is not properly initialized"]) := by
  conv_lhs => rw [generateImage.eq_def]
  simp [hp]

lemma saveImage_numInserts (uid : String) (storeOk : Bool) (imageUrl prompt : String) :
    numInserts (saveImage (some uid) storeOk imageUrl prompt).2 = 1 := by
  by_cases h : storeOk <;> simp [saveImage, h, isInsert]

lemma generateImage_numCalls_terminal (hf : Bool) (user : Option String) (prompt : String)
    (upstream : Nat → FetchOutcome) (storeOk : Bool) (rc : Nat)
    (hrc : MAX_RETRIES ≤ rc) :
    numCalls (generateImage hf user prompt upstream storeOk rc).2 ≤ 1 := by
  cases user with
  | none => simp [generateImage_noSession, isNetworkCall]
  | some uid =>
    rcases hp : trimmedEmpty prompt with _ | _
    · cases hf with
      | false =>
          simp [generateImage_hfMissing uid prompt upstream storeOk rc hp, isNetworkCall]
      | true =>
          rcases h : upstream rc with body | ⟨status, ra, ed⟩ | _ | _
          · rw [generateImage_ok true uid prompt upstream storeOk rc hp rfl body h]
            simp [isNetworkCall, saveImage_numCalls]
          · rw [generateImage_httpError_exhausted true uid prompt upstream storeOk rc hrc
              hp rfl status ra ed h]
            simp [isNetworkCall]
          · rw [generateImage_abort_exhausted true uid prompt upstream storeOk rc hrc
              hp rfl h]
            simp [isNetworkCall]
          · rw [generateImage_network_exhausted true uid prompt upstream storeOk rc hrc
              hp rfl h]
            simp [isNetworkCall]
    · simp [generateImage_emptyPrompt hf uid prompt upstream storeOk rc hp, isNetworkCall]

lemma generateImage_numCalls_step (hf : Bool) (user : Option String) (prompt : String)
    (upstream : Nat → FetchOutcome) (storeOk : Bool) (rc : Nat) :
    numCalls (generateImage hf user prompt upstream storeOk rc).2 ≤
      numCalls (generateImage hf user prompt upstream storeOk (rc + 1)).2 + 1 := by
  by_cases hrc : rc < MAX_RETRIES
  swap
  · have := generateImage_numCalls_terminal hf user prompt upstream storeOk rc
      (Nat.not_lt.mp hrc)
    omega
  cases user with
  | none => simp [generateImage_noSession, isNetworkCall]
  | some uid =>
    rcases hp : trimmedEmpty prompt with _ | _
    · cases hf with
      | false =>
          simp [generateImage_hfMissing uid prompt upstream storeOk rc hp,
            generateImage_hfMissing uid prompt upstream storeOk (rc + 1) hp, isNetworkCall]
      | true =>
          rcases h : upstream rc with body | ⟨status, ra, ed⟩ | _ | _
          · rw [generateImage_ok true uid prompt upstream storeOk rc hp rfl body h]
            simp [isNetworkCall, saveImage_numCalls]
          · rcases hed : isCudaOOM ed with _ | _
            · by_cases hst : status = 429
              · subst hst
                rw [generateImage_429_step true uid prompt upstream storeOk rc hrc
                  hp rfl ra ed hed h]
                simp [isNetworkCall]
              · rcases hff : strIncludes (errMessage (.apiRequestFailed ed))
                  "Failed to fetch" with _ | _
                · rw [generateImage_other_error true uid prompt upstream storeOk rc
                    hp rfl status ra ed hed hst hff h]
                  simp [isNetworkCall]
                · rw [generateImage_thrown_ff_step true uid prompt upstream storeOk rc hrc
                    hp rfl status ra ed hed hst hff h]
                  simp [isNetworkCall]
            · rw [generateImage_cuda_step true uid prompt upstream storeOk rc hrc
                hp rfl status ra ed hed h]
              simp [isNetworkCall]
          · rw [generateImage_abort_step true uid prompt upstream storeOk rc hrc hp rfl h]
            simp [isNetworkCall]
          · rw [generateImage_network_step true uid prompt upstream storeOk rc hrc hp rfl h]
            simp [isNetworkCall]
    · simp [generateImage_emptyPrompt hf uid prompt upstream storeOk rc hp,
        generateImage_emptyPrompt hf uid prompt upstream storeOk (rc + 1) hp, isNetworkCall]

/-! Claim theorems. -/

/-- C1: on an HTTP 429 response `generateImage` reads the Retry-After hint
(defaulting to 5 seconds when the header is absent), and when the attempt
counter is below `MAX_RETRIES` it waits that long and resubmits with an
incremented counter; against an upstream that always answers 429 the call
fails with the thrown upstream error after exactly 3 retries, i.e. 4 total
attempts. -/
theorem claim_C1 :
    DEFAULT_RETRY_AFTER = 5 ∧
    (∀ (uid prompt : String) (upstream : Nat → FetchOutcome) (storeOk : Bool)
        (rc : Nat) (ra : Option Nat) (ed : ErrorData),
      rc < MAX_RETRIES → trimmedEmpty prompt = false → isCudaOOM ed = false →
      upstream rc = .httpError 429 ra ed →
      generateImage true (some uid) prompt upstream storeOk rc =
        ((generateImage true (some uid) prompt upstream storeOk (rc + 1)).1,
          .networkCall (enhancedPrompt prompt) rc ::
            .wait ((ra.getD DEFAULT_RETRY_AFTER) * 1000) ::
            (generateImage true (some uid) prompt upstream storeOk (rc + 1)).2)) ∧
    (∀ (uid prompt : String) (storeOk : Bool) (ra : Option Nat) (ed : ErrorData),
      trimmedEmpty prompt = false → isCudaOOM ed = false →
      generateImage true (some uid) prompt (fun _ => .httpError 429 ra ed) storeOk 0 =
        (.failed (.apiRequestFailed ed),
          [.networkCall (enhancedPrompt prompt) 0,
           .wait ((ra.getD DEFAULT_RETRY_AFTER) * 1000),
           .networkCall (enhancedPrompt prompt) 1,
           .wait ((ra.getD DEFAULT_RETRY_AFTER) * 1000),
           .networkCall (enhancedPrompt prompt) 2,
           .wait ((ra.getD DEFAULT_RETRY_AFTER) * 1000),
           .networkCall (enhancedPrompt prompt) 3,
           .toastError (errMessage (.apiRequestFailed ed))])) := by
  refine ⟨rfl, ?_, ?_⟩
  · intro uid prompt upstream storeOk rc ra ed hrc hp hed hu
    exact generateImage_429_step true uid prompt upstream storeOk rc hrc hp rfl ra ed hed hu
  · intro uid prompt storeOk ra ed hp hed
    have h0 := generateImage_429_step true uid prompt (fun _ => .httpError 429 ra ed)
      storeOk 0 (by decide) hp rfl ra ed hed rfl
    have h1 := generateImage_429_step true uid prompt (fun _ => .httpError 429 ra ed)
      storeOk 1 (by decide) hp rfl ra ed hed rfl
    have h2 := generateImage_429_step true uid prompt (fun _ => .httpError 429 ra ed)
      storeOk 2 (by decide) hp rfl ra ed hed rfl
    have h3 := generateImage_httpError_exhausted true uid prompt
      (fun _ => .httpError 429 ra ed) storeOk 3 (by decide) hp rfl 429 ra ed rfl
    norm_num at h0 h1 h2
    rw [h0, h1, h2, h3]

/-- C1 witness: against a concrete always-429 upstream without a
Retry-After header, the call fails after 4 attempts with three 5000 ms
waits. -/
theorem claim_C1_witness :
    generateImage true (some "user-1") "a cat"
      (fun _ => .httpError 429 none ⟨false, false, none, "rate limited"⟩) true 0 =
      (.failed (.apiRequestFailed ⟨false, false, none, "rate limited"⟩),
        [.networkCall (enhancedPrompt "a cat") 0, .wait (5 * 1000),
         .networkCall (enhancedPrompt "a cat") 1, .wait (5 * 1000),
         .networkCall (enhancedPrompt "a cat") 2, .wait (5 * 1000),
         .networkCall (enhancedPrompt "a cat") 3,
         .toastError (errMessage
           (.apiRequestFailed ⟨false, false, none, "rate limited"⟩))]) := by
  have h := claim_C1.2.2 "user-1" "a cat" true none ⟨false, false, none, "rate limited"⟩
    (by decide) (by decide)
  simpa using h

/-- C1 counterexample: a concrete HTTP 429 response whose body carries the
CUDA out-of-memory warning is retried after the fixed 2000 ms delay of the
resource-exhaustion branch, which the source checks first; its Retry-After
hint of 7 s is not read, so the wait is 2000 ms rather than the 7000 ms
the claim prescribes for every 429 response. -/
theorem claim_C1_counterexample :
    (generateImage true (some "user-1") "a cat"
      (fun _ => .httpError 429 (some 7)
        ⟨true, true, some ["CUDA out of memory"], "oom"⟩)
      true 0).2.take 2 =
      [.networkCall (enhancedPrompt "a cat") 0, .wait RETRY_DELAY] ∧
    RETRY_DELAY ≠ 7 * 1000 := by
  have h := generateImage_cuda_step true "user-1" "a cat"
    (fun _ => .httpError 429 (some 7)
      ⟨true, true, some ["CUDA out of memory"], "oom"⟩)
    true 0 (by decide) (by decide) rfl 429 (some 7)
    ⟨true, true, some ["CUDA out of memory"], "oom"⟩ (by decide) rfl
  rw [h]
  exact ⟨rfl, by decide⟩

/-- C2: the single HTTP call of each attempt is bounded by
`TIMEOUT_MS = 30 * 1000` ms, after which it is an abort (Timeout) outcome;
every transport-level failure (abort or generic network failure) below the
retry bound waits `RETRY_DELAY = 2 * 1000` ms and resubmits, and against an
upstream that times out on every attempt the call fails with the timeout
error after 3 retries, each preceded by a 2000 ms wait. -/
theorem claim_C2 :
    TIMEOUT_MS = 30 * 1000 ∧ RETRY_DELAY = 2 * 1000 ∧
    (∀ (uid prompt : String) (upstream : Nat → FetchOutcome) (storeOk : Bool) (rc : Nat),
      rc < MAX_RETRIES → trimmedEmpty prompt = false →
      upstream rc = .abortError →
      generateImage true (some uid) prompt upstream storeOk rc =
        ((generateImage true (some uid) prompt upstream storeOk (rc + 1)).1,
          .networkCall (enhancedPrompt prompt) rc :: .wait RETRY_DELAY ::
            (generateImage true (some uid) prompt upstream storeOk (rc + 1)).2)) ∧
    (∀ (uid prompt : String) (upstream : Nat → FetchOutcome) (storeOk : Bool) (rc : Nat),
      rc < MAX_RETRIES → trimmedEmpty prompt = false →
      upstream rc = .networkError →
      generateImage true (some uid) prompt upstream storeOk rc =
        ((generateImage true (some uid) prompt upstream storeOk (rc + 1)).1,
          .networkCall (enhancedPrompt prompt) rc :: .wait RETRY_DELAY ::
            (generateImage true (some uid) prompt upstream storeOk (rc + 1)).2)) ∧
    (∀ (uid prompt : String) (storeOk : Bool),
      trimmedEmpty prompt = false →
      generateImage true (some uid) prompt (fun _ => .abortError) storeOk 0 =
        (.failed .abortTimeout,
          [.networkCall (enhancedPrompt prompt) 0, .wait RETRY_DELAY,
           .networkCall (enhancedPrompt prompt) 1, .wait RETRY_DELAY,
           .networkCall (enhancedPrompt prompt) 2, .wait RETRY_DELAY,
           .networkCall (enhancedPrompt prompt) 3,
           .toastError (errMessage .abortTimeout)])) := by
  refine ⟨rfl, rfl, ?_, ?_, ?_⟩
  · intro uid prompt upstream storeOk rc hrc hp hu
    exact generateImage_abort_step true uid prompt upstream storeOk rc hrc hp rfl hu
  · intro uid prompt upstream storeOk rc hrc hp hu
    exact generateImage_network_step true uid prompt upstream storeOk rc hrc hp rfl hu
  · intro uid prompt storeOk hp
    have h0 := generateImage_abort_step true uid prompt (fun _ => .abortError)
      storeOk 0 (by decide) hp rfl rfl
    have h1 := generateImage_abort_step true uid prompt (fun _ => .abortError)
      storeOk 1 (by decide) hp rfl rfl
    have h2 := generateImage_abort_step true uid prompt (fun _ => .abortError)
      storeOk 2 (by decide) hp rfl rfl
    have h3 := generateImage_abort_exhausted true uid prompt (fun _ => .abortError)
      storeOk 3 (by decide) hp rfl rfl
    norm_num at h0 h1 h2
    rw [h0, h1, h2, h3]

/-- C2 witness: against a concrete upstream that aborts every attempt, the
call fails with the timeout error after three 2000 ms waits and retries. -/
theorem claim_C2_witness :
    generateImage true (some "user-1") "a cat" (fun _ => .abortError) true 0 =
      (.failed .abortTimeout,
        [.networkCall (enhancedPrompt "a cat") 0, .wait RETRY_DELAY,
         .networkCall (enhancedPrompt "a cat") 1, .wait RETRY_DELAY,
         .networkCall (enhancedPrompt "a cat") 2, .wait RETRY_DELAY,
         .networkCall (enhancedPrompt "a cat") 3,
         .toastError (errMessage .abortTimeout)]) :=
  claim_C2.2.2.2.2 "user-1" "a cat" true (by decide)

/-- C3: for every upstream behaviour an invocation of `generateImage`
starting at attempt counter 0 makes at most `MAX_RETRIES + 1 = 4` HTTP
calls (at most 3 additional attempts beyond the first), reaching a
terminal result. -/
theorem claim_C3 (hf : Bool) (user : Option String) (prompt : String)
    (upstream : Nat → FetchOutcome) (storeOk : Bool) :
    MAX_RETRIES + 1 = 4 ∧
    numCalls (generateImage hf user prompt upstream storeOk 0).2 ≤ MAX_RETRIES + 1 := by
  refine ⟨rfl, ?_⟩
  have h0 := generateImage_numCalls_step hf user prompt upstream storeOk 0
  have h1 := generateImage_numCalls_step hf user prompt upstream storeOk 1
  have h2 := generateImage_numCalls_step hf user prompt upstream storeOk 2
  have h3 := generateImage_numCalls_terminal hf user prompt upstream storeOk 3 (by decide)
  have hm : MAX_RETRIES = 3 := rfl
  norm_num at h0 h1 h2
  omega

/-- C4: for every prompt that is empty or whitespace-only, `generateImage`
(under any session identity) fails with the empty-prompt outcome, emits
only the validation toast, and performs no network call and no insert. -/
theorem claim_C4 (hf : Bool) (uid prompt : String) (upstream : Nat → FetchOutcome)
    (storeOk : Bool) (rc : Nat) (hp : trimmedEmpty prompt = true) :
    generateImage hf (some uid) prompt upstream storeOk rc =
      (.emptyPrompt, [.toastError "Please enter a prompt"]) ∧
    numCalls (generateImage hf (some uid) prompt upstream storeOk rc).2 = 0 ∧
    numInserts (generateImage hf (some uid) prompt upstream storeOk rc).2 = 0 := by
  have h := generateImage_emptyPrompt hf uid prompt upstream storeOk rc hp
  refine ⟨h, ?_, ?_⟩ <;> rw [h] <;> simp [isNetworkCall, isInsert]

/-- C4 witness: the all-whitespace prompt "  " is rejected as empty with no
network call. -/
theorem claim_C4_witness :
    generateImage true (some "user-1") "  " (fun _ => .ok "img") true 0 =
      (.emptyPrompt, [.toastError "Please enter a prompt"]) ∧
    numCalls (generateImage true (some "user-1") "  " (fun _ => .ok "img") true 0).2 = 0 ∧
    numInserts (generateImage true (some "user-1") "  " (fun _ => .ok "img") true 0).2 = 0 :=
  claim_C4 true "user-1" "  " (fun _ => .ok "img") true 0 (by decide)

/-- C5: with an absent session identity both `generateImage` and `saveImage`
fail with the no-session outcome, emitting only a toast: no network call,
no insert, no other effect. -/
theorem claim_C5 (hf : Bool) (prompt imageUrl savePrompt : String)
    (upstream : Nat → FetchOutcome) (storeOk : Bool) (rc : Nat) :
    generateImage hf none prompt upstream storeOk rc =
      (.noSession, [.toastError "Please sign in to generate images"]) ∧
    numCalls (generateImage hf none prompt upstream storeOk rc).2 = 0 ∧
    numInserts (generateImage hf none prompt upstream storeOk rc).2 = 0 ∧
    saveImage none storeOk imageUrl savePrompt =
      (.noSession, [.toastError "Please sign in to save images"]) ∧
    numInserts (saveImage none storeOk imageUrl savePrompt).2 = 0 ∧
    numCalls (saveImage none storeOk imageUrl savePrompt).2 = 0 := by
  have h := generateImage_noSession hf prompt upstream storeOk rc
  refine ⟨h, ?_, ?_, rfl, ?_, ?_⟩
  · rw [h]; simp [isNetworkCall]
  · rw [h]; simp [isInsert]
  · simp [saveImage, isInsert]
  · simp [saveImage, isNetworkCall]

/-- C6: a response body indicating CUDA resource exhaustion makes
`generateImage` wait a fixed `RETRY_DELAY = 2 * 1000` ms and resubmit with
an incremented counter while the attempt counter is below `MAX_RETRIES`;
once the counter has reached the bound the thrown upstream error is
surfaced instead. -/
theorem claim_C6 :
    RETRY_DELAY = 2 * 1000 ∧
    (∀ (uid prompt : String) (upstream : Nat → FetchOutcome) (storeOk : Bool)
        (rc status : Nat) (ra : Option Nat) (ed : ErrorData),
      rc < MAX_RETRIES → trimmedEmpty prompt = false → isCudaOOM ed = true →
      upstream rc = .httpError status ra ed →
      generateImage true (some uid) prompt upstream storeOk rc =
        ((generateImage true (some uid) prompt upstream storeOk (rc + 1)).1,
          .networkCall (enhancedPrompt prompt) rc :: .wait RETRY_DELAY ::
            (generateImage true (some uid) prompt upstream storeOk (rc + 1)).2)) ∧
    (∀ (uid prompt : String) (upstream : Nat → FetchOutcome) (storeOk : Bool)
        (rc status : Nat) (ra : Option Nat) (ed : ErrorData),
      MAX_RETRIES ≤ rc → trimmedEmpty prompt = false → isCudaOOM ed = true →
      upstream rc = .httpError status ra ed →
      generateImage true (some uid) prompt upstream storeOk rc =
        (.failed (.apiRequestFailed ed),
          [.networkCall (enhancedPrompt prompt) rc,
           .toastError (errMessage (.apiRequestFailed ed))])) := by
  refine ⟨rfl, ?_, ?_⟩
  · intro uid prompt upstream storeOk rc status ra ed hrc hp hed hu
    exact generateImage_cuda_step true uid prompt upstream storeOk rc hrc hp rfl
      status ra ed hed hu
  · intro uid prompt upstream storeOk rc status ra ed hrc hp _hed hu
    exact generateImage_httpError_exhausted true uid prompt upstream storeOk rc hrc hp rfl
      status ra ed hu

/-- C6 witness: at an exhausted attempt counter a concrete CUDA
out-of-memory response is surfaced as the thrown upstream error. -/
theorem claim_C6_witness :
    generateImage true (some "user-1") "a cat"
      (fun _ => .httpError 500 none
        ⟨true, true, some ["CUDA out of memory"], "oom"⟩)
      true 3 =
      (.failed (.apiRequestFailed ⟨true, true, some ["CUDA out of memory"], "oom"⟩),
        [.networkCall (enhancedPrompt "a cat") 3,
         .toastError (errMessage (.apiRequestFailed
           ⟨true, true, some ["CUDA out of memory"], "oom"⟩))]) :=
  claim_C6.2.2 "user-1" "a cat"
    (fun _ => .httpError 500 none ⟨true, true, some ["CUDA out of memory"], "oom"⟩)
    true 3 500 none ⟨true, true, some ["CUDA out of memory"], "oom"⟩
    (by decide) (by decide) (by decide) rfl

/-- C7: on a successful generation with a valid session the prompt
submitted upstream is the user's prompt decorated with the fixed style
suffix, while exactly one record is inserted whose owner is the session
identity and whose prompt is the original, non-decorated prompt. -/
theorem claim_C7 (uid prompt body : String) (upstream : Nat → FetchOutcome) (rc : Nat)
    (hp : trimmedEmpty prompt = false) (hu : upstream rc = .ok body) :
    generateImage true (some uid) prompt upstream true rc =
      (.generated body,
        [.networkCall (prompt ++ STYLE_SUFFIX) rc, .setImage body,
         .insertRecord uid body prompt,
         .toastSuccess "Image saved to your gallery!",
         .toastSuccess "Image generated successfully!"]) ∧
    numInserts (generateImage true (some uid) prompt upstream true rc).2 = 1 ∧
    enhancedPrompt prompt = prompt ++ STYLE_SUFFIX := by
  have h := generateImage_ok true uid prompt upstream true rc hp rfl body hu
  rw [saveImage] at h
  simp only [if_pos rfl] at h
  refine ⟨?_, ?_, rfl⟩
  · rw [h]; rfl
  · rw [h]; simp [isInsert]

/-- C7 witness: a concrete successful generation inserts one record owned
by the session identity with the undecorated prompt. -/
theorem claim_C7_witness :
    generateImage true (some "user-1") "a cat" (fun _ => .ok "data:image") true 0 =
      (.generated "data:image",
        [.networkCall ("a cat" ++ STYLE_SUFFIX) 0, .setImage "data:image",
         .insertRecord "user-1" "data:image" "a cat",
         .toastSuccess "Image saved to your gallery!",
         .toastSuccess "Image generated successfully!"]) ∧
    numInserts (generateImage true (some "user-1") "a cat"
      (fun _ => .ok "data:image") true 0).2 = 1 ∧
    enhancedPrompt "a cat" = "a cat" ++ STYLE_SUFFIX :=
  claim_C7 "user-1" "a cat" "data:image" (fun _ => .ok "data:image") 0 (by decide) rfl

/-- C8: for every authenticated session the gallery query returns the
full, unpaginated set of the owner's records ordered most-recent first
(descending `created_at`), and never a record whose owner differs from the
querying identity. -/
theorem claim_C8 (uid : String) (store : List ImageRecord) :
    ∃ l, loadImages (some uid) true store = some l ∧
      (∀ r ∈ l, r.user_id = uid) ∧
      (∀ r ∈ store, r.user_id = uid → r ∈ l) ∧
      List.Sorted byNewest l ∧
      l.Perm (store.filter (fun r => r.user_id == uid)) := by
  refine ⟨loadImagesQuery store uid, by simp [loadImages], ?_, ?_, ?_, ?_⟩
  · intro r hr
    have hperm := List.perm_insertionSort byNewest (store.filter (fun r => r.user_id == uid))
    have hmem : r ∈ store.filter (fun r => r.user_id == uid) := hperm.mem_iff.mp hr
    simpa using (List.mem_filter.mp hmem).2
  · intro r hr hid
    have hperm := List.perm_insertionSort byNewest (store.filter (fun r => r.user_id == uid))
    exact hperm.mem_iff.mpr (List.mem_filter.mpr ⟨hr, by simp [hid]⟩)
  · exact List.sorted_insertionSort byNewest _
  · exact List.perm_insertionSort byNewest _

/-- C8 witness: the owner-isolation and ordering facts at a concrete
three-record store with two owners. -/
theorem claim_C8_witness :
    ∃ l, loadImages (some "u") true
        [⟨"i1", "u", "url1", "p1", 5⟩, ⟨"i2", "v", "url2", "p2", 7⟩,
         ⟨"i3", "u", "url3", "p3", 9⟩] = some l ∧
      (∀ r ∈ l, r.user_id = "u") ∧
      (∀ r ∈ [(⟨"i1", "u", "url1", "p1", 5⟩ : ImageRecord),
              ⟨"i2", "v", "url2", "p2", 7⟩, ⟨"i3", "u", "url3", "p3", 9⟩],
        r.user_id = "u" → r ∈ l) ∧
      List.Sorted byNewest l ∧
      l.Perm ([(⟨"i1", "u", "url1", "p1", 5⟩ : ImageRecord),
               ⟨"i2", "v", "url2", "p2", 7⟩,
               ⟨"i3", "u", "url3", "p3", 9⟩].filter (fun r => r.user_id == "u")) :=
  claim_C8 "u"
    [⟨"i1", "u", "url1", "p1", 5⟩, ⟨"i2", "v", "url2", "p2", 7⟩,
     ⟨"i3", "u", "url3", "p3", 9⟩]

/-- C9: a failed save is surfaced as a non-fatal warning toast with exactly
one insert attempt and no retry, and the already-displayed generation
result is left unchanged: the image is still set and the call still
returns the generated result. -/
theorem claim_C9 (uid prompt body : String) (upstream : Nat → FetchOutcome) (rc : Nat)
    (hp : trimmedEmpty prompt = false) (hu : upstream rc = .ok body) :
    saveImage (some uid) false body prompt =
      (.storeFailed, [.insertRecord uid body prompt, .toastError "Failed to save image"]) ∧
    generateImage true (some uid) prompt upstream false rc =
      (.generated body,
        [.networkCall (enhancedPrompt prompt) rc, .setImage body,
         .insertRecord uid body prompt,
         .toastError "Failed to save image",
         .toastSuccess "Image generated successfully!"]) ∧
    numInserts (generateImage true (some uid) prompt upstream false rc).2 = 1 ∧
    (generateImage true (some uid) prompt upstream false rc).1 = .generated body := by
  have h := generateImage_ok true uid prompt upstream false rc hp rfl body hu
  simp only [saveImage, Bool.false_eq_true, if_false, List.cons_append, List.nil_append] at h
  refine ⟨by simp [saveImage], ?_, ?_, ?_⟩
  · rw [h]
  · rw [h]; simp [isInsert]
  · rw [h]

/-- C9 witness: a concrete failed save leaves the displayed result intact
with a single insert attempt and a warning toast. -/
theorem claim_C9_witness :
    saveImage (some "user-1") false "data:image" "a cat" =
      (.storeFailed,
        [.insertRecord "user-1" "data:image" "a cat", .toastError "Failed to save image"]) ∧
    generateImage true (some "user-1") "a cat" (fun _ => .ok "data:image") false 0 =
      (.generated "data:image",
        [.networkCall (enhancedPrompt "a cat") 0, .setImage "data:image",
         .insertRecord "user-1" "data:image" "a cat",
         .toastError "Failed to save image",
         .toastSuccess "Image generated successfully!"]) ∧
    numInserts (generateImage true (some "user-1") "a cat"
      (fun _ => .ok "data:image") false 0).2 = 1 ∧
    (generateImage true (some "user-1") "a cat"
      (fun _ => .ok "data:image") false 0).1 = .generated "data:image" :=
  claim_C9 "user-1" "a cat" "data:image" (fun _ => .ok "data:image") 0 (by decide) rfl

/-- C10: with the inference API key absent the client handle is not
initialised; every `generateImage` call then performs no network call and
never reaches a generated or thrown-upstream result, and with a valid
session and non-empty prompt it fails with the distinct
client-not-initialised outcome. -/
theorem claim_C10 :
    hfInit none = false ∧
    (∀ (user : Option String) (prompt : String) (upstream : Nat → FetchOutcome)
        (storeOk : Bool) (rc : Nat),
      numCalls (generateImage (hfInit none) user prompt upstream storeOk rc).2 = 0 ∧
      (∀ te, (generateImage (hfInit none) user prompt upstream storeOk rc).1 ≠ .failed te) ∧
      (∀ b, (generateImage (hfInit none) user prompt upstream storeOk rc).1 ≠
        .generated b)) ∧
    (∀ (uid prompt : String) (upstream : Nat → FetchOutcome) (storeOk : Bool) (rc : Nat),
      trimmedEmpty prompt = false →
      generateImage (hfInit none) (some uid) prompt upstream storeOk rc =
        (.hfMissing, [.toastError "API client is not properly initialized"])) := by
  refine ⟨rfl, ?_, ?_⟩
  · intro user prompt upstream storeOk rc
    have e : hfInit none = false := rfl
    rw [e]
    cases user with
    | none =>
        rw [generateImage_noSession false prompt upstream storeOk rc]
        refine ⟨by simp [isNetworkCall], ?_, ?_⟩ <;> intro x <;> simp
    | some uid =>
        rcases hp : trimmedEmpty prompt with _ | _
        · rw [generateImage_hfMissing uid prompt upstream storeOk rc hp]
          refine ⟨by simp [isNetworkCall], ?_, ?_⟩ <;> intro x <;> simp
        · rw [generateImage_emptyPrompt false uid prompt upstream storeOk rc hp]
          refine ⟨by simp [isNetworkCall], ?_, ?_⟩ <;> intro x <;> simp
  · intro uid prompt upstream storeOk rc hp
    exact generateImage_hfMissing uid prompt upstream storeOk rc hp

/-- C10 witness: with a missing key, a concrete call with a valid session
and non-empty prompt fails with the client-not-initialised outcome. -/
theorem claim_C10_witness :
    generateImage (hfInit none) (some "user-1") "a cat" (fun _ => .ok "img") true 0 =
      (.hfMissing, [.toastError "API client is not properly initialized"]) :=
  claim_C10.2.2 "user-1" "a cat" (fun _ => .ok "img") true 0 (by decide)

end CartoonAI
